import Mathlib

/-!
Shallow embedding of src/src/lib/stores.ts, the sveltefire reactive
Firestore store module: the document store write path (updateDocument,
lines 47-58), the collection store with its diff engine
(updateCollection, lines 115-142), the snapshot listener (lines
104-113), and the add and remove operations (lines 148-176).

Modeling conventions.  A Firestore document reference is modeled by its
path string: two references to the same document compare deep-equal
exactly when their paths agree, and the backend helper doc(colRef, id)
resolves to the path of colRef followed by a slash and id.  The generic
record payload is an opaque type F with decidable equality; it is
assumed not to use the reserved key names id, ref, oldRef and newRef,
which the TypeScript type T with id and ref fields keeps outside the
payload.  A JavaScript null or undefined value is Option.none.
Asynchronous fire-and-forget backend calls are modeled as the list of
remote operations a call issues, in issue order; a thrown error is an
Except.error result, carrying no operations since the throw happens
before any backend call.
-/

namespace Sveltefire

/-- A collection record as decoded at stores.ts line 107: an optional
identity, an optional document reference (its path string) and the
payload. -/
structure FDoc (F : Type) where
  id : Option String
  ref : Option String
  fields : F
deriving DecidableEq

/-- Data written by the diff engine at stores.ts lines 134-137: the
record with its ref key removed, keeping identity and payload. -/
structure WData (F : Type) where
  id : Option String
  fields : F
deriving DecidableEq

/-- A remote operation issued by the collection store: setData is the
diff write setDoc(ref, data) with the ref key stripped from data,
setFull is the upsert setDoc(doc(colRef, docId), value) of the full
record, addGen is addDoc(colRef, value) with a backend generated
identity, del is deleteDoc(ref). -/
inductive ColOp (F : Type) where
  | setData : String → WData F → ColOp F
  | setFull : String → FDoc F → ColOp F
  | addGen : FDoc F → ColOp F
  | del : String → ColOp F
deriving DecidableEq

/-- Whether an operation is a remote delete. -/
def ColOp.isDel {F : Type} : ColOp F → Bool
  | .del _ => true
  | _ => false

/-- The collection store reference colRef of stores.ts line 100: either
a plain collection, carrying its path, or a query; the field
colRef.type distinguishes the two at lines 149 and 167. -/
inductive ColRef where
  | coll : String → ColRef
  | query : ColRef
deriving DecidableEq

/-- The mutable state of one collection store instance: internalDocs is
the Remote Snapshot baseline of line 101, localValue the writable store
value published to subscribers. -/
structure MirrorState (F : Type) where
  internalDocs : List (FDoc F)
  localValue : List (FDoc F)
deriving DecidableEq

variable {F : Type} [DecidableEq F]

/-- deepCopy from the firebase util package, used at line 109.  Values
of this embedding have value semantics, so the copy is the identity
function; what copying buys at the JavaScript level, namely that
mutating the delivered array cannot reach internalDocs, is modeled by
mutateDelivered below. -/
def deepCopy (l : List (FDoc F)) : List (FDoc F) := l

/-- One snapshot document as the listener receives it: s.id, s.ref and
s.data() at line 107. -/
structure SnapDoc (F : Type) where
  id : String
  ref : String
  data : F
deriving DecidableEq

/-- The onSnapshot callback at lines 105-110: internalDocs is replaced
by the decoded snapshot, and a deep copy of it is published as the
store value. -/
def applySnapshot (snap : List (SnapDoc F)) : MirrorState F :=
  let internal := snap.map (fun s => FDoc.mk (some s.id) (some s.ref) s.data)
  MirrorState.mk internal (deepCopy internal)

/-- The filter at lines 119-131: a record of the new collection is
dirty when no record of the baseline has the same identity (the find at
lines 120-122 compares newDoc.id to doc.id, so two absent identities
also match), or when the matched pair is not deep-equal.  The
destructurings at lines 127-128 bind properties named oldRef and
newRef, which the records do not have, so they remove no key and
deepEqual compares the whole records, the ref field included. -/
def dirtyDocs (base newCollection : List (FDoc F)) : List (FDoc F) :=
  newCollection.filter (fun newDoc =>
    match base.find? (fun d => newDoc.id == d.id) with
    | none => true
    | some oldDoc => !(oldDoc == newDoc))

/-- The write loop at lines 133-138: for each dirty record that carries
a ref, setDoc(ref, data) where data is the record minus its ref key;
dirty records without a ref are skipped. -/
def writeOps (docs : List (FDoc F)) : List (ColOp F) :=
  docs.filterMap (fun d => d.ref.map (fun r => ColOp.setData r (WData.mk d.id d.fields)))

/-- updateCollection at lines 115-142: the updater is applied to
internalDocs, the Remote Snapshot; a null or undefined result is
replaced by the empty array at line 117; the result is published as the
store value and the dirty records are written.  internalDocs itself is
not reassigned, so for a non-mutating updater the baseline is
unchanged. -/
def updateCollection (s : MirrorState F)
    (updater : List (FDoc F) → Option (List (FDoc F))) :
    MirrorState F × List (ColOp F) :=
  let newCollection := (updater s.internalDocs).getD []
  (MirrorState.mk s.internalDocs newCollection,
    writeOps (dirtyDocs s.internalDocs newCollection))

/-- setCollection at lines 144-146: update with a constant updater. -/
def setCollection (s : MirrorState F) (value : List (FDoc F)) :
    MirrorState F × List (ColOp F) :=
  updateCollection s (fun _ => some value)

/-- Line 117 hands internalDocs itself to the updater, not a copy.
This definition gives the semantics of updateCollection for an updater
that mutates the array it receives in place and returns that array: the
mutation lands on internalDocs before the diff at lines 119-131 reads
it, so the diff baseline, the published value and the internalDocs
retained in the closure are all the mutated array. -/
def updateCollectionMut (s : MirrorState F)
    (mutator : List (FDoc F) → List (FDoc F)) :
    MirrorState F × List (ColOp F) :=
  let mutated := mutator s.internalDocs
  (MirrorState.mk mutated mutated, writeOps (dirtyDocs mutated mutated))

/-- A subscriber mutating the value a snapshot notification delivered:
line 109 published deepCopy(internalDocs), so the mutation reaches only
the published copy and internalDocs is untouched. -/
def mutateDelivered (s : MirrorState F)
    (mutator : List (FDoc F) → List (FDoc F)) : MirrorState F :=
  MirrorState.mk s.internalDocs (mutator s.localValue)

/-- JavaScript truthiness of an optional string: undefined and the
empty string are falsy. -/
def strTruthy : Option String → Bool
  | some s => !(s == "")
  | none => false

/-- The JavaScript short-circuit disjunction of two optional strings,
as in line 153: the first operand when truthy, otherwise the second. -/
def jsOrStr (a b : Option String) : Option String :=
  if strTruthy a then a else b

/-- addDocument at lines 148-162: throws on a query reference before
any write; otherwise computes docId as the explicit id argument
or-else value.id, and exactly one of the two guarded writes runs,
since the guards at lines 155 and 159 test the same docId in
complementary ways. -/
def addDocument (colRef : ColRef) (value : FDoc F) (id : Option String) :
    Except String (List (ColOp F)) :=
  match colRef with
  | ColRef.query => Except.error "Cannot add document to a query"
  | ColRef.coll path =>
    let docId := jsOrStr id value.id
    if strTruthy docId then
      Except.ok [ColOp.setFull (path ++ "/" ++ docId.getD "") value]
    else
      Except.ok [ColOp.addGen value]

/-- The backend helper doc(colRef, id) used at line 168: it rejects a
missing or empty id as an invalid document path, and otherwise resolves
to the reference at the collection path followed by the id. -/
def fsDocRef (path : String) (id : Option String) : Except String String :=
  match id with
  | none => Except.error "Invalid document path"
  | some s =>
    if s == "" then Except.error "Invalid document path"
    else Except.ok (path ++ "/" ++ s)

/-- removeDocument at lines 164-176: the stored ref of the record wins;
with no stored ref and a plain collection reference, a ref is rebuilt
from the record identity at line 168; with no stored ref on a query,
the usage error at line 172 is thrown; whenever a ref was resolved,
exactly one deleteDoc is issued. -/
def removeDocument (colRef : ColRef) (document : FDoc F) :
    Except String (List (ColOp F)) :=
  match document.ref with
  | some r => Except.ok [ColOp.del r]
  | none =>
    match colRef with
    | ColRef.coll path =>
      match fsDocRef path document.id with
      | Except.ok r => Except.ok [ColOp.del r]
      | Except.error e => Except.error e
    | ColRef.query =>
      Except.error "Cannot delete document without ref nor id"

/-- A remote write issued by the document store: setDoc with the empty
object, or setDoc with the full new record.  The target is always the
fixed docRef of the store, so it is left implicit. -/
inductive DocWrite (T : Type) where
  | empty : DocWrite T
  | full : T → DocWrite T
deriving DecidableEq

/-- updateDocument at lines 47-58: the updater is applied to the
current store value; a null result issues an empty-object write at line
51, any other result a full overwrite at line 54; the result becomes
the new store value.  The document type is a JavaScript object, always
truthy, so the falsy test at line 50 holds exactly for null and
undefined results. -/
def updateDocument {T : Type} (prev : Option T)
    (updater : Option T → Option T) : Option T × List (DocWrite T) :=
  match updater prev with
  | none => (none, [DocWrite.empty])
  | some t => (some t, [DocWrite.full t])

/-- The record without its ref key: the comparison the specification
prescribes for the diff, field content with the reference excluded. -/
def stripRef (d : FDoc F) : WData F :=
  WData.mk d.id d.fields

omit [DecidableEq F] in
theorem writeOps_not_del (docs : List (FDoc F)) :
    (writeOps docs).all (fun op => !op.isDel) = true := by
  induction docs with
  | nil => rfl
  | cons d rest ih =>
    cases h : d.ref with
    | none => simpa [writeOps, h] using ih
    | some r => simpa [writeOps, h, ColOp.isDel] using ih

theorem dirtyDocs_perm_nil (base l : List (FDoc F))
    (hnd : (base.map FDoc.id).Nodup) (hp : List.Perm l base) :
    dirtyDocs base l = [] := by
  unfold dirtyDocs
  rw [List.filter_eq_nil_iff]
  intro nd hmem
  have hbase : nd ∈ base := hp.subset hmem
  cases hfind : base.find? (fun d => nd.id == d.id) with
  | none =>
    have hnone := List.find?_eq_none.mp hfind nd hbase
    simp at hnone
  | some od =>
    have hodmem : od ∈ base := List.mem_of_find?_eq_some hfind
    have hpred := List.find?_some hfind
    have hid : od.id = nd.id := by
      have hx : nd.id = od.id := by simpa using hpred
      exact hx.symm
    have hod : od = nd := List.inj_on_of_nodup_map hnd hodmem hbase hid
    simp [hfind, hod]

/-- Claim C1: the record diff at lines 119-131 does not in fact exclude
the reference field.  With equal field content but a different ref path
(stripRef values equal), the code still issues a remote write for the
record, because lines 127-128 destructure the nonexistent keys oldRef
and newRef instead of ref, leaving both refs inside the deepEqual
comparison. -/
theorem updateCollection_ref_included_in_diff :
    stripRef (FDoc.mk (some "a") (some "c/a") (1 : Int)) =
      stripRef (FDoc.mk (some "a") (some "d/a") 1) ∧
    (updateCollection
      (MirrorState.mk [FDoc.mk (some "a") (some "c/a") (1 : Int)] [])
      (fun _ => some [FDoc.mk (some "a") (some "d/a") 1])).2
      = [ColOp.setData "d/a" (WData.mk (some "a") 1)] := by
  exact ⟨rfl, by decide⟩

/-- Claim C2: updateCollection applies the updater to internalDocs, the
Remote Snapshot, and its whole outcome is independent of the Local
Snapshot; whenever the updater result is a permutation of the Remote
Snapshot (the identity updater included), zero remote writes are
issued.  Record identities of the Remote Snapshot are assumed pairwise
distinct, the data-model invariant for a decoded collection
snapshot. -/
theorem updateCollection_perm_no_writes (s : MirrorState F)
    (u : List (FDoc F) → Option (List (FDoc F))) (l : List (FDoc F))
    (hu : u s.internalDocs = some l) (hp : List.Perm l s.internalDocs)
    (hnd : (s.internalDocs.map FDoc.id).Nodup) :
    (updateCollection s u).2 = [] ∧
    (updateCollection s u).1.localValue = l ∧
    (∀ lv, updateCollection (MirrorState.mk s.internalDocs lv) u =
      updateCollection s u) := by
  refine ⟨?_, ?_, fun lv => rfl⟩
  · simp [updateCollection, hu,
      dirtyDocs_perm_nil s.internalDocs l hnd hp, writeOps]
  · simp [updateCollection, hu]

/-- Claim C2 witness: reversing a two-record Remote Snapshot issues no
remote writes. -/
theorem updateCollection_perm_no_writes_witness :
    (updateCollection
      (MirrorState.mk
        [FDoc.mk (some "a") (some "c/a") (1 : Int),
         FDoc.mk (some "b") (some "c/b") 2] [])
      (fun _ => some
        [FDoc.mk (some "b") (some "c/b") 2,
         FDoc.mk (some "a") (some "c/a") 1])).2 = [] :=
  (updateCollection_perm_no_writes
    (MirrorState.mk
      [FDoc.mk (some "a") (some "c/a") (1 : Int),
       FDoc.mk (some "b") (some "c/b") 2] [])
    (fun _ => some
      [FDoc.mk (some "b") (some "c/b") 2,
       FDoc.mk (some "a") (some "c/a") 1])
    [FDoc.mk (some "b") (some "c/b") 2,
     FDoc.mk (some "a") (some "c/a") 1]
    rfl (List.Perm.swap _ _ _) (by decide)).1

/-- Claim C3: with Remote Snapshot a mapping to 1 and b mapping to 2,
an update returning a mapping to 1 and b mapping to 3 issues exactly
one remote write, the full record at identity b. -/
theorem updateCollection_dirty_only_writes :
    (updateCollection
      (MirrorState.mk
        [FDoc.mk (some "a") (some "c/a") (1 : Int),
         FDoc.mk (some "b") (some "c/b") 2] [])
      (fun _ => some
        [FDoc.mk (some "a") (some "c/a") 1,
         FDoc.mk (some "b") (some "c/b") 3])).2
      = [ColOp.setData "c/b" (WData.mk (some "b") 3)] := by
  decide

/-- Claim C4: right after setCollection, and equally after an update
whose updater returns the value, the synchronously published store
value equals the given value, whatever remote writes were queued. -/
theorem setCollection_read_your_write (s : MirrorState F)
    (value : List (FDoc F)) :
    (setCollection s value).1.localValue = value ∧
    (updateCollection s (fun _ => some value)).1.localValue = value :=
  ⟨rfl, rfl⟩

/-- Claim C5 counterexample: an updater that mutates the array it was
handed (rewriting the payload to 2 and returning the array) does alter
internalDocs, the diff baseline, because line 117 passes the baseline
itself; the content change is moreover invisible to the diff, so the
write for it is silently skipped. -/
theorem updateCollectionMut_baseline_mutated :
    (updateCollectionMut
      (MirrorState.mk [FDoc.mk (some "a") (some "c/a") (1 : Int)]
        [FDoc.mk (some "a") (some "c/a") 1])
      (fun l => l.map (fun d => FDoc.mk d.id d.ref 2))).1.internalDocs ≠
      [FDoc.mk (some "a") (some "c/a") (1 : Int)] ∧
    (updateCollectionMut
      (MirrorState.mk [FDoc.mk (some "a") (some "c/a") (1 : Int)]
        [FDoc.mk (some "a") (some "c/a") 1])
      (fun l => l.map (fun d => FDoc.mk d.id d.ref 2))).2 = [] := by
  decide

/-- Claim C5 amended: a remote notification publishes a deep copy, so a
subscriber mutating the delivered value leaves the baseline untouched;
but the previous value handed to the updater is internalDocs itself,
so an updater mutating its argument in place replaces the baseline with
the mutated array. -/
theorem snapshot_copy_updater_alias (s : MirrorState F)
    (m : List (FDoc F) → List (FDoc F)) :
    (mutateDelivered s m).internalDocs = s.internalDocs ∧
    (updateCollectionMut s m).1.internalDocs = m s.internalDocs :=
  ⟨rfl, rfl⟩

omit [DecidableEq F] in
/-- Claim C6: addDocument on a query reference rejects before issuing
any write; on a plain collection it performs exactly one upsert at the
explicit id when one is given, at the id stored on the record when only
that one is given, and exactly one backend-generated-identity write
when neither is given.  Ids, when present, are assumed nonempty, as
Firestore identities are. -/
theorem addDocument_paths (path : String) (value : FDoc F)
    (id : Option String) (h1 : id ≠ some "") (h2 : value.id ≠ some "") :
    addDocument ColRef.query value id =
      Except.error "Cannot add document to a query" ∧
    (∀ s, id = some s →
      addDocument (ColRef.coll path) value id =
        Except.ok [ColOp.setFull (path ++ "/" ++ s) value]) ∧
    (id = none → ∀ s, value.id = some s →
      addDocument (ColRef.coll path) value id =
        Except.ok [ColOp.setFull (path ++ "/" ++ s) value]) ∧
    (id = none → value.id = none →
      addDocument (ColRef.coll path) value id =
        Except.ok [ColOp.addGen value]) := by
  refine ⟨rfl, ?_, ?_, ?_⟩
  · rintro s rfl
    have hs : s ≠ "" := fun h => h1 (by rw [h])
    simp [addDocument, jsOrStr, strTruthy, hs]
  · rintro rfl s hv
    have hs : s ≠ "" := fun h => h2 (by rw [hv, h])
    simp [addDocument, jsOrStr, strTruthy, hv, hs]
  · rintro rfl hv
    simp [addDocument, jsOrStr, strTruthy, hv]

/-- Claim C6 witness: adding on a query rejects; adding a record whose
own id is k on a plain collection upserts exactly once at k. -/
theorem addDocument_paths_witness :
    addDocument ColRef.query (FDoc.mk (some "k") none (5 : Int)) none =
      Except.error "Cannot add document to a query" ∧
    addDocument (ColRef.coll "c") (FDoc.mk (some "k") none (5 : Int)) none =
      Except.ok [ColOp.setFull ("c" ++ "/" ++ "k")
        (FDoc.mk (some "k") none 5)] :=
  ⟨(addDocument_paths "c" (FDoc.mk (some "k") none (5 : Int)) none
      (by decide) (by decide)).1,
   (addDocument_paths "c" (FDoc.mk (some "k") none (5 : Int)) none
      (by decide) (by decide)).2.2.1 rfl "k" rfl⟩

omit [DecidableEq F] in
/-- Claim C7: removeDocument uses the stored ref of the record when one
is present; otherwise, on a plain collection it rebuilds the ref from
the record identity; with no stored ref on a query it rejects with the
usage error and issues nothing; every resolved ref yields exactly one
remote delete. -/
theorem removeDocument_paths (colRef : ColRef) (d : FDoc F) :
    (∀ r, d.ref = some r →
      removeDocument colRef d = Except.ok [ColOp.del r]) ∧
    (∀ path i, d.ref = none → colRef = ColRef.coll path → d.id = some i →
      i ≠ "" →
      removeDocument colRef d = Except.ok [ColOp.del (path ++ "/" ++ i)]) ∧
    (d.ref = none → colRef = ColRef.query →
      removeDocument colRef d =
        Except.error "Cannot delete document without ref nor id") := by
  refine ⟨?_, ?_, ?_⟩
  · intro r hr; simp [removeDocument, hr]
  · rintro path i hr rfl hi hne
    simp [removeDocument, hr, fsDocRef, hi, hne]
  · rintro hr rfl
    simp [removeDocument, hr]

/-- Claim C7 witness: deleting a record with identity z and no stored
ref rejects on a query, and on the plain collection c issues exactly
one delete at the rebuilt ref. -/
theorem removeDocument_paths_witness :
    removeDocument ColRef.query (FDoc.mk (some "z") none (0 : Int)) =
      Except.error "Cannot delete document without ref nor id" ∧
    removeDocument (ColRef.coll "c") (FDoc.mk (some "z") none (0 : Int)) =
      Except.ok [ColOp.del ("c" ++ "/" ++ "z")] :=
  ⟨(removeDocument_paths ColRef.query
      (FDoc.mk (some "z") none (0 : Int))).2.2 rfl rfl,
   (removeDocument_paths (ColRef.coll "c")
      (FDoc.mk (some "z") none (0 : Int))).2.1 "c" "z" rfl rfl rfl
      (by decide)⟩

/-- Claim C8: updateCollection never issues a remote delete, it
publishes the updater result as the local value, and a snapshot
notification republishes the remote state as the local value, so a
record omitted from an update result only disappears locally until the
next notification. -/
theorem updateCollection_no_implicit_delete (s : MirrorState F)
    (u : List (FDoc F) → Option (List (FDoc F))) :
    ((updateCollection s u).2.all (fun op => !op.isDel)) = true ∧
    (updateCollection s u).1.localValue = (u s.internalDocs).getD [] ∧
    (∀ snap : List (SnapDoc F),
      (applySnapshot snap).localValue = (applySnapshot snap).internalDocs) :=
  ⟨writeOps_not_del _, rfl, fun _ => rfl⟩

/-- Claim C9: updateDocument applies the updater to the current store
value, publishes the result, and issues exactly one write: the empty
object when the result is null, otherwise the full new record. -/
theorem updateDocument_full_write {T : Type} (prev : Option T)
    (u : Option T → Option T) :
    (updateDocument prev u).1 = u prev ∧
    (updateDocument prev u).2.length = 1 ∧
    (u prev = none → (updateDocument prev u).2 = [DocWrite.empty]) ∧
    (∀ t, u prev = some t →
      (updateDocument prev u).2 = [DocWrite.full t]) := by
  cases h : u prev with
  | none => simp [updateDocument, h]
  | some t => simp [updateDocument, h]

/-- Claim C9 witness: an updater returning the record 2 makes the store
value 2 and issues exactly the one full write of 2. -/
theorem updateDocument_full_write_witness :
    (updateDocument (some (1 : Int)) (fun _ => some 2)).2 =
      [DocWrite.full (2 : Int)] :=
  (updateDocument_full_write (some 1) (fun _ => some 2)).2.2.2 2 rfl

/-- Claim C10: an updater returning null or undefined makes
updateCollection publish the empty collection and issue zero remote
writes; the or-else empty array at line 117 keeps the call from
failing. -/
theorem updateCollection_falsy_updater (s : MirrorState F)
    (u : List (FDoc F) → Option (List (FDoc F)))
    (hu : u s.internalDocs = none) :
    updateCollection s u = (MirrorState.mk s.internalDocs [], []) := by
  simp [updateCollection, hu, dirtyDocs, writeOps]

/-- Claim C10 witness: the constant none updater on a one-record
snapshot publishes the empty collection and issues no writes. -/
theorem updateCollection_falsy_updater_witness :
    updateCollection
      (MirrorState.mk [FDoc.mk (some "a") (some "c/a") (1 : Int)] [])
      (fun _ => none) =
      (MirrorState.mk [FDoc.mk (some "a") (some "c/a") (1 : Int)] [], []) :=
  updateCollection_falsy_updater
    (MirrorState.mk [FDoc.mk (some "a") (some "c/a") (1 : Int)] [])
    (fun _ => none) rfl

end Sveltefire
